import Mathlib

/-!
Verification of the Graph API access layer of the outlook-mcp server.

The development shallowly embeds the code of `utils/graph-api.js`
(`callGraphAPI`, `callGraphAPIPaginated`) and `auth/index.js`
(`ensureAuthenticated`).  Network I/O, the token-refresh call
(`tokenStorage.getValidAccessToken()`) and `JSON.parse` are modelled as
oracles collected in an environment record; the functions additionally
return the trace of HTTP attempts they issue and the number of refresh
calls they make, so that retry/refresh behaviour is observable.
-/

/-- JSON values, the data carried by Graph API responses. -/
inductive Json where
  | null
  | bool (b : Bool)
  | num (n : Int)
  | str (s : String)
  | arr (elems : List Json)
  | obj (fields : List (String × Json))

/-- Field lookup on a JSON object (`response.value` etc.); `none` for
non-objects and missing keys. -/
def Json.get (j : Json) (k : String) : Option Json :=
  match j with
  | .obj fields => fields.lookup k
  | _ => none

/-- UTF-8 bytes of a character, as used by JavaScript percent-encoding. -/
def utf8Bytes (c : Char) : List Nat :=
  let n := c.toNat
  if n < 128 then [n]
  else if n < 2048 then [192 + n / 64, 128 + n % 64]
  else if n < 65536 then [224 + n / 4096, 128 + (n / 64) % 64, 128 + n % 64]
  else [240 + n / 262144, 128 + (n / 4096) % 64, 128 + (n / 64) % 64, 128 + n % 64]

/-- Upper-case hexadecimal digit. -/
def hexDigit (n : Nat) : Char :=
  if n < 10 then Char.ofNat (48 + n) else Char.ofNat (55 + n)

/-- Percent-encoding of one byte, `%XX` with upper-case hex. -/
def percentEncodeByte (b : Nat) : String :=
  String.mk ['%', hexDigit (b / 16), hexDigit (b % 16)]

/-- Characters that JavaScript `encodeURIComponent` leaves unescaped:
alphanumerics and `- _ . ! ~ *` apostrophe `( )`. -/
def isUnescapedInURIComponent (c : Char) : Bool :=
  c.isAlphanum || c = '-' || c = '_' || c = '.' || c = '!' || c = '~' ||
    c = '*' || c.toNat = 39 || c = '(' || c = ')'

/-- Model of JavaScript `encodeURIComponent`. -/
def encodeURIComponent (s : String) : String :=
  String.join (s.data.map (fun c =>
    if isUnescapedInURIComponent c then String.singleton c
    else String.join ((utf8Bytes c).map percentEncodeByte)))

/-- Characters the WHATWG `application/x-www-form-urlencoded` serializer
(`URLSearchParams.toString`) leaves unescaped: alphanumerics and `* - . _`. -/
def isUnescapedInForm (c : Char) : Bool :=
  c.isAlphanum || c = '*' || c = '-' || c = '.' || c = '_'

/-- Form-encoding of one character: space becomes `+`, safe characters stay,
everything else is percent-encoded byte-wise. -/
def formEncodeChar (c : Char) : String :=
  if c = ' ' then "+"
  else if isUnescapedInForm c then String.singleton c
  else String.join ((utf8Bytes c).map percentEncodeByte)

/-- Model of form-encoding a single key or value, as `URLSearchParams` does. -/
def formEncode (s : String) : String :=
  String.join (s.data.map formEncodeChar)

/-- Model of `new URLSearchParams(); append(k, v)...; toString()`:
form-encoded `k=v` pairs joined by `&`, in insertion order. -/
def formEncodePairs (qp : List (String × String)) : String :=
  String.intercalate "&" (qp.map (fun kv => formEncode kv.1 ++ "=" ++ formEncode kv.2))

/-- Whether the first character list leads the second (both read left to
right). -/
def startsWithChars : List Char → List Char → Bool
  | [], _ => true
  | _ :: _, [] => false
  | a :: as, b :: bs => a == b && startsWithChars as bs

/-- Model of JavaScript `String.prototype.startsWith`, computed on the
character lists. -/
def strStartsWith (s p : String) : Bool :=
  startsWithChars p.data s.data

/-- Test of `path.startsWith('http://') || path.startsWith('https://')`
(graph-api.js line 44). -/
def isAbsoluteUrl (p : String) : Bool :=
  strStartsWith p "http://" || strStartsWith p "https://"

/-- Model of JavaScript `split('/')` on the character list: groups between
slash separators, with empty groups at the ends where JavaScript has them. -/
def splitOnSlash : List Char → List (List Char)
  | [] => [[]]
  | c :: cs =>
    if c = '/' then [] :: splitOnSlash cs
    else
      match splitOnSlash cs with
      | [] => [[c]]
      | g :: gs => (c :: g) :: gs

/-- Model of `path.split('/').map(encodeURIComponent).join('/')`
(graph-api.js lines 51-53). -/
def encodePath (p : String) : String :=
  String.intercalate "/" ((splitOnSlash p.data).map (fun g => encodeURIComponent (String.mk g)))

/-- Value of `queryParams.$filter` when it is truthy (`if (filter)`,
graph-api.js line 60): present and a non-empty string. -/
def truthyFilter (qp : List (String × String)) : Option String :=
  match qp.lookup "$filter" with
  | some f => if f = "" then none else some f
  | none => none

/-- Effect of `delete queryParams.$filter` on the entry list of the
query-parameter object (keys of a JavaScript object are unique). -/
def delFilter (qp : List (String × String)) : List (String × String) :=
  qp.filter (fun kv => kv.1 ≠ "$filter")

/-- Model of the query-string construction of graph-api.js lines 55-86:
empty for an empty parameter object; otherwise a truthy `$filter` is pulled
out, the remaining entries are serialized by `URLSearchParams`, the filter
is appended as `$filter=` plus `encodeURIComponent` of its value, and a
leading `?` is added when the result is non-empty. -/
def buildQueryString (qp : List (String × String)) : String :=
  if qp.isEmpty then ""
  else
    match truthyFilter qp with
    | some f =>
      let qs := formEncodePairs (delFilter qp)
      if qs = "" then "?" ++ ("$filter=" ++ encodeURIComponent f)
      else "?" ++ (qs ++ "&$filter=" ++ encodeURIComponent f)
    | none => "?" ++ formEncodePairs qp

/-- Model of the `finalUrl` computation of graph-api.js lines 42-90: an
absolute path (pagination nextLink) is used verbatim, otherwise the base
endpoint, the percent-encoded path and the query string are concatenated. -/
def buildUrl (endpoint : String) (path : String) (qp : List (String × String)) : String :=
  if isAbsoluteUrl path then path
  else endpoint ++ encodePath path ++ buildQueryString qp

/-- The query-parameter object as the retry call sees it: building the URL
for a relative path executed `delete queryParams.$filter` (line 61) on the
shared object whenever the filter was truthy, so the mutation is visible in
the recursive call of line 135. -/
def mutatedParams (path : String) (qp : List (String × String)) :
    List (String × String) :=
  if isAbsoluteUrl path then qp
  else if qp.isEmpty then qp
  else
    match truthyFilter qp with
    | some _ => delFilter qp
    | none => qp

example : encodeURIComponent "subject eq hello" = "subject%20eq%20hello" := by decide
example : formEncode "$top" = "%24top" := by decide
example : buildQueryString [("$top", "5"), ("$filter", "a b")] =
    "?%24top=5&$filter=a%20b" := by decide
example : buildQueryString [("$filter", "x")] = "?$filter=x" := by decide
example : buildQueryString [] = "" := by decide
example : buildQueryString [("$top", "5"), ("$filter", "")] = "?%24top=5&%24filter=" := by
  decide

/-- Outcome of one HTTP request issued by `https.request`: a response with a
status code and accumulated body, or a transport error (`req.on('error')`). -/
inductive HttpOutcome where
  | response (status : Nat) (body : String)
  | netError (msg : String)
deriving DecidableEq

/-- Outcome of one call to `tokenStorage.getValidAccessToken()`: a resolved
string, a resolved null/undefined, or a thrown error. -/
inductive RefreshOutcome where
  | ok (tok : String)
  | nul
  | raised (msg : String)
deriving DecidableEq

/-- The errors `callGraphAPI`/`callGraphAPIPaginated` reject with; each
constructor stores the data interpolated into the `Error` message. -/
inductive GraphError where
  | parseError (inner : String)
  | unauthorized (inner : String)
  | apiError (status : Nat) (body : String)
  | networkError (inner : String)
  | unsupportedPagination
deriving DecidableEq

/-- The `message` of the JavaScript `Error` each `GraphError` models. -/
def GraphError.message : GraphError → String
  | .parseError m => "Error parsing API response: " ++ m
  | .unauthorized m => "UNAUTHORIZED: " ++ m
  | .apiError s b => "API call failed with status " ++ toString s ++ ": " ++ b
  | .networkError m => "Network error during API call: " ++ m
  | .unsupportedPagination => "Pagination only supports GET requests"

/-- One HTTP request as issued on the wire together with the logical
arguments it was built from: `url` is the `finalUrl` handed to
`https.request`, the remaining fields are the arguments of the
`callGraphAPI` invocation that issued it. -/
structure Attempt where
  url : String
  token : String
  method : String
  path : String
  data : Option Json
  queryParams : List (String × String)

/-- The environment a call runs in: configuration, the mock-data branch,
the network, the token storage and `JSON.parse`.  `respond` and `refresh`
are indexed by how many HTTP requests / refresh calls happened before, so
that successive calls may observe different answers. -/
structure Env where
  useTestMode : Bool
  graphEndpoint : String
  simulate : String → String → Option Json → List (String × String) → Json
  respond : Nat → Attempt → HttpOutcome
  refresh : Nat → RefreshOutcome
  parse : String → Except String Json

/-- The attempt a `callGraphAPI` invocation issues for its arguments. -/
def mkAttempt (env : Env) (accessToken method path : String) (data : Option Json)
    (queryParams : List (String × String)) : Attempt :=
  { url := buildUrl env.graphEndpoint path queryParams
    token := accessToken
    method := method
    path := path
    data := data
    queryParams := queryParams }

/-- Outcome of a call: the value it resolves/rejects with, the HTTP requests
it issued in order, and how many `getValidAccessToken()` calls it made. -/
structure CallOut where
  result : Except GraphError Json
  attempts : List Attempt
  refreshes : Nat

/-- Handling of a 2xx response body (graph-api.js lines 109-116): an empty
body is replaced by the literal `(left brace)(right brace)`, which
`JSON.parse` turns into the empty object; otherwise the body is parsed and
a parse failure is rejected as a response-format error. -/
def parse2xx (env : Env) (body : String) : Except GraphError Json :=
  if body = "" then .ok (Json.obj [])
  else
    match env.parse body with
    | .ok j => .ok j
    | .error m => .error (.parseError m)

/-- Shallow embedding of `callGraphAPI` (graph-api.js lines 29-184) for an
invocation whose `_isRetry` flag is true (the recursive call of line 135):
the guard `statusCode === 401 && !_isRetry` is then false, so every non-2xx
status — 401 included — is rejected as the API error.  The catch block of
lines 166-183 only sees exceptions thrown before the returned promise is
created; URL building is total, so that path is dead in the model. -/
def callGraphAPIRetry (env : Env) (n r : Nat) (accessToken method path : String)
    (data : Option Json) (queryParams : List (String × String)) : CallOut :=
  if env.useTestMode && strStartsWith accessToken "test_access_token_" then
    { result := .ok (env.simulate method path data queryParams)
      attempts := [], refreshes := 0 }
  else
    let att := mkAttempt env accessToken method path data queryParams
    match env.respond n att with
    | .netError m =>
      { result := .error (.networkError m), attempts := [att], refreshes := 0 }
    | .response s b =>
      if 200 ≤ s ∧ s < 300 then
        { result := parse2xx env b, attempts := [att], refreshes := 0 }
      else
        { result := .error (.apiError s b), attempts := [att], refreshes := 0 }

/-- Shallow embedding of `callGraphAPI` (graph-api.js lines 29-184) for an
invocation with `_isRetry` at its default false, i.e. the entry point every
caller uses.  The source is one recursive function carrying the `_isRetry`
flag; since the flag only ever takes the two values false/true, the
embedding specializes it: the recursive retry call of line 135 (flag true)
is `callGraphAPIRetry`.  On a 401 the refresh oracle is consulted once: a
thrown refresh error or a falsy token rejects with the unauthorized error
(lines 127-131, 138-149); a fresh token triggers the single reissue, whose
failure of any kind is re-wrapped by the catch of line 138 into
`UNAUTHORIZED: ` followed by the inner message.  The reissue receives
`mutatedParams path queryParams` because building a relative URL executed
`delete queryParams.$filter` (line 61) on the shared parameter object. -/
def callGraphAPI (env : Env) (n r : Nat) (accessToken method path : String)
    (data : Option Json) (queryParams : List (String × String)) : CallOut :=
  if env.useTestMode && strStartsWith accessToken "test_access_token_" then
    { result := .ok (env.simulate method path data queryParams)
      attempts := [], refreshes := 0 }
  else
    let att := mkAttempt env accessToken method path data queryParams
    match env.respond n att with
    | .netError m =>
      { result := .error (.networkError m), attempts := [att], refreshes := 0 }
    | .response s b =>
      if 200 ≤ s ∧ s < 300 then
        { result := parse2xx env b, attempts := [att], refreshes := 0 }
      else if s = 401 then
        match env.refresh r with
        | .raised m =>
          { result := .error (.unauthorized m), attempts := [att], refreshes := 1 }
        | .nul =>
          { result := .error (.unauthorized "refresh failed or no refresh_token")
            attempts := [att], refreshes := 1 }
        | .ok fresh =>
          if fresh = "" then
            { result := .error (.unauthorized "refresh failed or no refresh_token")
              attempts := [att], refreshes := 1 }
          else
            let inner := callGraphAPIRetry env (n + 1) (r + 1) fresh method path
              data (mutatedParams path queryParams)
            match inner.result with
            | .ok j =>
              { result := .ok j, attempts := att :: inner.attempts
                refreshes := 1 + inner.refreshes }
            | .error e =>
              { result := .error (.unauthorized e.message)
                attempts := att :: inner.attempts
                refreshes := 1 + inner.refreshes }
      else
        { result := .error (.apiError s b), attempts := [att], refreshes := 0 }

/-- Items pushed from one page (graph-api.js lines 211-214): the spread of
`response.value` when it is an array, nothing otherwise. -/
def valueItems (resp : Json) : List Json :=
  match resp.get "value" with
  | some (.arr xs) => xs
  | _ => []

/-- The continuation cursor of a page (graph-api.js line 223): the value of
the odata nextLink field when it is a truthy string.  (A non-string truthy
value there would crash the JavaScript URL building and is not modelled.) -/
def nextLinkOf (resp : Json) : Option String :=
  match resp.get "@odata.nextLink" with
  | some (.str s) => if s = "" then none else some s
  | _ => none

/-- The combined response object returned after the loop (graph-api.js
lines 238-241). -/
def paginatedResponse (items : List Json) : Json :=
  Json.obj [("value", Json.arr items), ("@odata.count", Json.num items.length)]

/-- Shallow embedding of the do/while loop of `callGraphAPIPaginated`
(graph-api.js lines 200-241), with an explicit fuel bound on the number of
iterations (`none` means the chain of cursors outran the fuel).  Each
iteration calls `callGraphAPI`, appends `value` items, breaks once a
positive `maxCount` is reached, otherwise follows a truthy nextLink with
the cursor URL as the new target and an empty parameter object. -/
def paginateLoop (env : Env) :
    Nat → Nat → Nat → String → String → List (String × String) → Nat →
      List Json → Option CallOut
  | 0, _, _, _, _, _, _, _ => none
  | fuel + 1, n, r, accessToken, currentUrl, currentParams, maxCount, allItems =>
    let c := callGraphAPI env n r accessToken "GET" currentUrl none currentParams
    match c.result with
    | .error e => some { result := .error e, attempts := c.attempts, refreshes := c.refreshes }
    | .ok resp =>
      let items := allItems ++ valueItems resp
      if 0 < maxCount ∧ maxCount ≤ items.length then
        some { result := .ok (paginatedResponse (items.take maxCount))
               attempts := c.attempts, refreshes := c.refreshes }
      else
        match nextLinkOf resp with
        | some link =>
          match paginateLoop env fuel (n + c.attempts.length) (r + c.refreshes)
              accessToken link [] maxCount items with
          | some rest =>
            some { result := rest.result, attempts := c.attempts ++ rest.attempts
                   refreshes := c.refreshes + rest.refreshes }
          | none => none
        | none =>
          let finalItems := if 0 < maxCount then items.take maxCount else items
          some { result := .ok (paginatedResponse finalItems)
                 attempts := c.attempts, refreshes := c.refreshes }

/-- Shallow embedding of `callGraphAPIPaginated` (graph-api.js lines
195-246): a non-GET method is rejected up front, before any API call;
otherwise the pagination loop runs starting from the given path and
parameters with an empty accumulator.  The catch block rethrows errors
unchanged, so loop errors propagate as-is. -/
def callGraphAPIPaginated (env : Env) (fuel n r : Nat)
    (accessToken method path : String) (queryParams : List (String × String))
    (maxCount : Nat) : Option CallOut :=
  if method = "GET" then
    paginateLoop env fuel n r accessToken path queryParams maxCount []
  else
    some { result := .error .unsupportedPagination, attempts := [], refreshes := 0 }

/-- Outcome of one call to `tokenStorage.getValidAccessToken()` as seen by
`ensureAuthenticated` (auth/index.js line 33). -/
structure AuthEnv where
  getValidAccessToken : RefreshOutcome

deriving instance DecidableEq for Except

/-- Result of `ensureAuthenticated` plus the number of token-store
consultations (calls to `getValidAccessToken`) it performed. -/
structure AuthOut where
  result : Except String String
  storeReads : Nat
deriving DecidableEq

/-- Shallow embedding of `ensureAuthenticated` (auth/index.js lines 13-42):
`forceNew` throws immediately; otherwise the freshly constructed
`TokenStorage` is consulted once and a falsy token (null or empty string)
raises the same error, a truthy token is returned. -/
def ensureAuthenticated (env : AuthEnv) (forceNew : Bool) : AuthOut :=
  if forceNew then { result := .error "Authentication required", storeReads := 0 }
  else
    match env.getValidAccessToken with
    | .raised m => { result := .error m, storeReads := 1 }
    | .nul => { result := .error "Authentication required", storeReads := 1 }
    | .ok t =>
      if t = "" then { result := .error "Authentication required", storeReads := 1 }
      else { result := .ok t, storeReads := 1 }

/-- Environment used by concrete witnesses: every request gets a 401 whose
body records the attempt index, and the refresh always yields `t2`. -/
def w401Env : Env :=
  { useTestMode := false
    graphEndpoint := "https://graph.microsoft.com/v1.0/"
    simulate := fun _ _ _ _ => Json.null
    respond := fun n _ => .response 401 ("b" ++ toString n)
    refresh := fun _ => .ok "t2"
    parse := fun _ => .error "unexpected token" }

example : (callGraphAPI w401Env 0 0 "t1" "GET" "me" none []).attempts.length = 2 := by decide
example : (callGraphAPI w401Env 0 0 "t1" "GET" "me" none []).refreshes = 1 := by decide
example : (callGraphAPI w401Env 0 0 "t1" "GET" "me" none []).result =
    .error (.unauthorized "API call failed with status 401: b1") := by rfl

/-- C10: `ensureAuthenticated` called with `forceNew = true` throws the
authentication-required error without consulting the token store, whatever
the store would answer, while a `forceNew = false` call consults the store
exactly once. -/
theorem claim_C10 (env : AuthEnv) :
    ensureAuthenticated env true =
        { result := .error "Authentication required", storeReads := 0 } ∧
      (ensureAuthenticated env false).storeReads = 1 := by
  refine ⟨rfl, ?_⟩
  unfold ensureAuthenticated
  cases env.getValidAccessToken with
  | ok t =>
    by_cases h : t = "" <;> simp [h]
  | nul => simp
  | raised m => simp

/-- C7: `callGraphAPIPaginated` rejects any non-GET method with the
unsupported-operation error before issuing a single request: the attempt
trace is empty and no refresh happens. -/
theorem claim_C7 (env : Env) (fuel n r : Nat) (accessToken method path : String)
    (queryParams : List (String × String)) (maxCount : Nat)
    (h : method ≠ "GET") :
    callGraphAPIPaginated env fuel n r accessToken method path queryParams maxCount =
      some { result := .error .unsupportedPagination, attempts := [], refreshes := 0 } := by
  unfold callGraphAPIPaginated
  simp [h]

/-- Witness for C7 at the concrete method `POST`. -/
theorem claim_C7_witness :
    "POST" ≠ "GET" ∧
      callGraphAPIPaginated w401Env 5 0 0 "t1" "POST" "me/messages" [] 0 =
        some { result := .error .unsupportedPagination, attempts := [], refreshes := 0 } :=
  ⟨by decide, claim_C7 w401Env 5 0 0 "t1" "POST" "me/messages" [] 0 (by decide)⟩

/-- C8: a response that is neither 2xx nor 401 makes the invocation that
received it — first attempt or reissued attempt alike — reject with the API
error carrying that status code and raw body, after exactly one request and
no refresh. -/
theorem claim_C8 (env : Env) (n r : Nat) (accessToken method path : String)
    (data : Option Json) (queryParams : List (String × String)) (s : Nat) (b : String)
    (hTest : env.useTestMode = false)
    (hResp : env.respond n (mkAttempt env accessToken method path data queryParams) =
      .response s b)
    (hs : ¬(200 ≤ s ∧ s < 300)) (h401 : s ≠ 401) :
    callGraphAPI env n r accessToken method path data queryParams =
      { result := .error (.apiError s b)
        attempts := [mkAttempt env accessToken method path data queryParams]
        refreshes := 0 } ∧
    callGraphAPIRetry env n r accessToken method path data queryParams =
      { result := .error (.apiError s b)
        attempts := [mkAttempt env accessToken method path data queryParams]
        refreshes := 0 } := by
  constructor
  · simp [callGraphAPI, hTest, hResp, hs, h401]
  · simp [callGraphAPIRetry, hTest, hResp, hs]

/-- Witness environment: every request gets a concrete 503. -/
def w503Env : Env :=
  { useTestMode := false
    graphEndpoint := "https://graph.microsoft.com/v1.0/"
    simulate := fun _ _ _ _ => Json.null
    respond := fun _ _ => .response 503 "server busy"
    refresh := fun _ => .ok "t2"
    parse := fun _ => .error "unexpected token" }

/-- Witness for C8: the 503 body is surfaced in the API error and no retry
happens. -/
theorem claim_C8_witness :
    w503Env.useTestMode = false ∧ ¬(200 ≤ 503 ∧ 503 < 300) ∧ 503 ≠ 401 ∧
      callGraphAPI w503Env 0 0 "t1" "GET" "me" none [] =
        { result := .error (.apiError 503 "server busy")
          attempts := [mkAttempt w503Env "t1" "GET" "me" none []]
          refreshes := 0 } :=
  ⟨rfl, by decide, by decide,
    (claim_C8 w503Env 0 0 "t1" "GET" "me" none [] 503 "server busy" rfl rfl
      (by decide) (by decide)).1⟩

/-- C9: on a 2xx response an empty body resolves to the empty JSON object,
and a response-format error arises only from a non-empty body that fails to
parse (and then carries the parse failure); this holds for the entry call
and for a reissued call alike. -/
theorem claim_C9 (env : Env) (n r : Nat) (accessToken method path : String)
    (data : Option Json) (queryParams : List (String × String)) (s : Nat) (b : String)
    (hTest : env.useTestMode = false)
    (hResp : env.respond n (mkAttempt env accessToken method path data queryParams) =
      .response s b)
    (hs : 200 ≤ s ∧ s < 300) :
    (callGraphAPI env n r accessToken method path data queryParams).result =
        parse2xx env b ∧
    (callGraphAPIRetry env n r accessToken method path data queryParams).result =
        parse2xx env b ∧
    (b = "" → parse2xx env b = .ok (Json.obj [])) ∧
    (∀ m, parse2xx env b = .error (.parseError m) →
      b ≠ "" ∧ env.parse b = .error m) := by
  refine ⟨?_, ?_, ?_, ?_⟩
  · simp [callGraphAPI, hTest, hResp, hs]
  · simp [callGraphAPIRetry, hTest, hResp, hs]
  · intro hb
    simp [parse2xx, hb]
  · intro m hm
    by_cases hb : b = ""
    · simp [parse2xx, hb] at hm
    · refine ⟨hb, ?_⟩
      simp only [parse2xx, if_neg hb] at hm
      cases hp : env.parse b with
      | ok j => rw [hp] at hm; cases hm
      | error m2 => rw [hp] at hm; cases hm; rfl

/-- Environment for the C9 witness: a 2xx response with an empty body. -/
def wEmptyEnv : Env :=
  { useTestMode := false
    graphEndpoint := "https://graph.microsoft.com/v1.0/"
    simulate := fun _ _ _ _ => Json.null
    respond := fun _ _ => .response 204 ""
    refresh := fun _ => .nul
    parse := fun _ => .error "unexpected end of input" }

/-- Witness for C9: an empty 204 body resolves to the empty object. -/
theorem claim_C9_witness :
    wEmptyEnv.useTestMode = false ∧ (200 ≤ 204 ∧ 204 < 300) ∧
      (callGraphAPI wEmptyEnv 0 0 "t1" "GET" "me" none []).result =
        .ok (Json.obj []) := by
  have h := claim_C9 wEmptyEnv 0 0 "t1" "GET" "me" none [] 204 "" rfl rfl (by decide)
  exact ⟨rfl, by decide, h.1.trans (h.2.2.1 rfl)⟩

/-- A reissued invocation (`_isRetry` true) issues at most one request and
never refreshes, whatever the environment. -/
theorem callGraphAPIRetry_bound (env : Env) (n r : Nat)
    (accessToken method path : String) (data : Option Json)
    (queryParams : List (String × String)) :
    (callGraphAPIRetry env n r accessToken method path data queryParams).attempts.length ≤ 1 ∧
      (callGraphAPIRetry env n r accessToken method path data queryParams).refreshes = 0 := by
  by_cases ht : (env.useTestMode && strStartsWith accessToken "test_access_token_") = true
  · simp [callGraphAPIRetry, ht]
  · rcases h : env.respond n (mkAttempt env accessToken method path data queryParams)
      with ⟨s, b⟩ | m
    · by_cases hs : 200 ≤ s ∧ s < 300 <;> simp [callGraphAPIRetry, ht, h, hs]
    · simp [callGraphAPIRetry, ht, h]

/-- A reissued invocation rejects any non-2xx response — 401 included — as
the API error for its status and body. -/
theorem callGraphAPIRetry_non2xx (env : Env) (n r : Nat)
    (accessToken method path : String) (data : Option Json)
    (queryParams : List (String × String)) (s : Nat) (b : String)
    (hTest : env.useTestMode = false)
    (hResp : env.respond n (mkAttempt env accessToken method path data queryParams) =
      .response s b)
    (hs : ¬(200 ≤ s ∧ s < 300)) :
    callGraphAPIRetry env n r accessToken method path data queryParams =
      { result := .error (.apiError s b)
        attempts := [mkAttempt env accessToken method path data queryParams]
        refreshes := 0 } := by
  simp [callGraphAPIRetry, hTest, hResp, hs]

/-- C1: a logical request performs at most one refresh-and-retry cycle.  In
any environment the entry-point call issues at most two requests and at most
one refresh; a 401 on the first attempt triggers exactly one refresh call;
when that refresh yields a fresh token the request is reissued once, and a
401 on the reissued attempt terminates the call with the wrapped
authorization error — no third request exists under any input. -/
theorem claim_C1 (env : Env) (n r : Nat) (accessToken method path : String)
    (data : Option Json) (queryParams : List (String × String)) :
    ((callGraphAPI env n r accessToken method path data queryParams).attempts.length ≤ 2 ∧
      (callGraphAPI env n r accessToken method path data queryParams).refreshes ≤ 1) ∧
    (∀ b1, env.useTestMode = false →
      env.respond n (mkAttempt env accessToken method path data queryParams) =
        .response 401 b1 →
      (callGraphAPI env n r accessToken method path data queryParams).refreshes = 1) ∧
    (∀ b1 fresh b2, env.useTestMode = false →
      env.respond n (mkAttempt env accessToken method path data queryParams) =
        .response 401 b1 →
      env.refresh r = .ok fresh → fresh ≠ "" →
      env.respond (n + 1)
          (mkAttempt env fresh method path data (mutatedParams path queryParams)) =
        .response 401 b2 →
      (callGraphAPI env n r accessToken method path data queryParams).attempts =
        [mkAttempt env accessToken method path data queryParams,
          mkAttempt env fresh method path data (mutatedParams path queryParams)] ∧
      (callGraphAPI env n r accessToken method path data queryParams).result =
        .error (.unauthorized (GraphError.message (.apiError 401 b2)))) := by
  refine ⟨?_, ?_, ?_⟩
  · by_cases ht : (env.useTestMode && strStartsWith accessToken "test_access_token_") = true
    · simp [callGraphAPI, ht]
    · rcases h : env.respond n (mkAttempt env accessToken method path data queryParams)
        with ⟨s, b⟩ | m
      · by_cases hs : 200 ≤ s ∧ s < 300
        · simp [callGraphAPI, ht, h, hs]
        · by_cases h4 : s = 401
          · subst h4
            rcases hr : env.refresh r with ⟨fresh⟩ | _ | m
            · by_cases hf : fresh = ""
              · simp [callGraphAPI, ht, h, hr, hf]
              · obtain ⟨hb1, hb2⟩ := callGraphAPIRetry_bound env (n + 1) (r + 1) fresh
                  method path data (mutatedParams path queryParams)
                rcases hi : (callGraphAPIRetry env (n + 1) (r + 1) fresh method path data
                    (mutatedParams path queryParams)).result with j | e <;>
                  simp [callGraphAPI, ht, h, hr, hf, hi] <;> omega
            · simp [callGraphAPI, ht, h, hr]
            · simp [callGraphAPI, ht, h, hr]
          · simp [callGraphAPI, ht, h, hs, h4]
      · simp [callGraphAPI, ht, h]
  · intro b1 hTest hResp
    rcases hr : env.refresh r with ⟨fresh⟩ | _ | m
    · by_cases hf : fresh = ""
      · simp [callGraphAPI, hTest, hResp, hr, hf]
      · obtain ⟨hb1, hb2⟩ := callGraphAPIRetry_bound env (n + 1) (r + 1) fresh
          method path data (mutatedParams path queryParams)
        rcases hi : (callGraphAPIRetry env (n + 1) (r + 1) fresh method path data
            (mutatedParams path queryParams)).result with j | e <;>
          simp [callGraphAPI, hTest, hResp, hr, hf, hi] <;> omega
    · simp [callGraphAPI, hTest, hResp, hr]
    · simp [callGraphAPI, hTest, hResp, hr]
  · intro b1 fresh b2 hTest hResp hRef hf hResp2
    have hinner := callGraphAPIRetry_non2xx env (n + 1) (r + 1) fresh method path
      data (mutatedParams path queryParams) 401 b2 hTest hResp2 (by decide)
    constructor <;>
      simp [callGraphAPI, hTest, hResp, hRef, hf, hinner, GraphError.message]

/-- Witness for C1: in the double-401 environment the call makes exactly the
two attempts and terminates with the wrapped authorization error. -/
theorem claim_C1_witness :
    w401Env.useTestMode = false ∧
    w401Env.respond 0 (mkAttempt w401Env "t1" "GET" "me" none []) =
      .response 401 "b0" ∧
    w401Env.refresh 0 = .ok "t2" ∧ "t2" ≠ "" ∧
    w401Env.respond 1 (mkAttempt w401Env "t2" "GET" "me" none (mutatedParams "me" [])) =
      .response 401 "b1" ∧
    (callGraphAPI w401Env 0 0 "t1" "GET" "me" none []).attempts =
      [mkAttempt w401Env "t1" "GET" "me" none [],
        mkAttempt w401Env "t2" "GET" "me" none (mutatedParams "me" [])] ∧
    (callGraphAPI w401Env 0 0 "t1" "GET" "me" none []).result =
      .error (.unauthorized (GraphError.message (.apiError 401 "b1"))) := by
  have h := (claim_C1 w401Env 0 0 "t1" "GET" "me" none []).2.2 "b0" "t2" "b1"
    rfl rfl rfl (by decide) rfl
  exact ⟨rfl, rfl, rfl, by decide, rfl, h.1, h.2⟩

/-- Environment exhibiting the retry divergence: the first request gets a
401, the reissued one succeeds. -/
def c3Env : Env :=
  { useTestMode := false
    graphEndpoint := "https://graph.microsoft.com/v1.0/"
    simulate := fun _ _ _ _ => Json.null
    respond := fun n _ => if n = 0 then .response 401 "expired" else .response 200 "ok"
    refresh := fun _ => .ok "t2"
    parse := fun _ => .ok Json.null }

/-- C3 divergence: with `(dollar)filter` present in the query parameters, a
401 followed by a successful refresh reissues the request with an *empty*
parameter object — line 61 deleted the filter from the shared object — so
the retried URL lacks the filter while the original carried it; the claim
and the specification require the reissued request to be identical. -/
theorem claim_C3_divergence :
    ((callGraphAPI c3Env 0 0 "t1" "GET" "me/messages" none
        [("$filter", "subject eq hello")]).attempts.map (fun a => a.queryParams)) =
      [[("$filter", "subject eq hello")], []] ∧
    ((callGraphAPI c3Env 0 0 "t1" "GET" "me/messages" none
        [("$filter", "subject eq hello")]).attempts.map (fun a => a.url)) =
      ["https://graph.microsoft.com/v1.0/me/messages?$filter=subject%20eq%20hello",
        "https://graph.microsoft.com/v1.0/me/messages"] ∧
    (callGraphAPI c3Env 0 0 "t1" "GET" "me/messages" none
        [("$filter", "subject eq hello")]).result = .ok Json.null := by
  refine ⟨by decide, by decide, by rfl⟩

/-- The accumulator is a prefix of `String.intercalate.go`. -/
theorem intercalate_go_data (sep : String) (xs : List String) :
    ∀ acc : String, ∃ t, (String.intercalate.go acc sep xs).data = acc.data ++ t := by
  induction xs with
  | nil => intro acc; exact ⟨[], by simp [String.intercalate.go]⟩
  | cons a as ih =>
    intro acc
    obtain ⟨t, htt⟩ := ih (acc ++ sep ++ a)
    exact ⟨sep.data ++ a.data ++ t, by
      simp [String.intercalate.go, htt, String.data_append]⟩

/-- A serialized non-empty parameter list is a non-empty string (it contains
at least one `=`). -/
theorem formEncodePairs_ne (kv : String × String) (l : List (String × String)) :
    formEncodePairs (kv :: l) ≠ "" := by
  intro h
  have hd := congrArg String.data h
  simp only [formEncodePairs, List.map_cons, String.intercalate] at hd
  obtain ⟨t, htt⟩ := intercalate_go_data "&"
    (l.map (fun kv => formEncode kv.1 ++ "=" ++ formEncode kv.2))
    (formEncode kv.1 ++ "=" ++ formEncode kv.2)
  rw [htt] at hd
  simp [String.data_append] at hd

/-- Query-string builder as the specification describes it (section 4.4 and
P6): general parameters are form-encoded by the standard serializer, the
designated filter parameter is percent-encoded as a whole and appended as a
distinct trailing component, and the pieces are joined with `?` and `&` as
appropriate whether the filter is alone, absent, or combined. -/
def specQueryString (qp : List (String × String)) : String :=
  match qp.lookup "$filter" with
  | some f =>
    let rest := delFilter qp
    if rest.isEmpty then "?$filter=" ++ encodeURIComponent f
    else "?" ++ formEncodePairs rest ++ "&$filter=" ++ encodeURIComponent f
  | none => if qp.isEmpty then "" else "?" ++ formEncodePairs qp

/-- Counterexample to C4 as stated: with an *empty* `$filter` value the
JavaScript truthiness test skips the special handling, so `$filter` stays in
the general parameters and is form-encoded inline (`%24filter=`) instead of
being appended as the percent-encoded trailing component the claim
describes for every parameter map. -/
theorem claim_C4_counterexample :
    buildQueryString [("$top", "5"), ("$filter", "")] ≠
        specQueryString [("$top", "5"), ("$filter", "")] ∧
      buildQueryString [("$top", "5"), ("$filter", "")] = "?%24top=5&%24filter=" ∧
      specQueryString [("$top", "5"), ("$filter", "")] = "?%24top=5&$filter=" := by
  refine ⟨by decide, by decide, by decide⟩

/-- C4 (amended): for every query-parameter map whose `$filter` entry, if
present, is non-empty, the built query string — and hence the URL built for
a relative path — agrees with the specified encoding: general parameters
form-encoded, the filter percent-encoded as a whole and appended as the
distinct trailing component, joined correctly with `?` and `&` whether the
filter is alone, absent, or combined with other parameters. -/
theorem claim_C4 (qp : List (String × String))
    (hf : ∀ f, qp.lookup "$filter" = some f → f ≠ "") :
    buildQueryString qp = specQueryString qp ∧
      ∀ endpoint path, isAbsoluteUrl path = false →
        buildUrl endpoint path qp = endpoint ++ encodePath path ++ specQueryString qp := by
  have hmain : buildQueryString qp = specQueryString qp := by
    cases hl : qp.lookup "$filter" with
    | none =>
      have ht : truthyFilter qp = none := by simp [truthyFilter, hl]
      simp [buildQueryString, specQueryString, hl, ht]
    | some f =>
      have hne : f ≠ "" := hf f hl
      have ht : truthyFilter qp = some f := by simp [truthyFilter, hl, hne]
      have he : qp.isEmpty = false := by
        cases qp with
        | nil => simp [List.lookup] at hl
        | cons a l => rfl
      cases hrest : delFilter qp with
      | nil =>
        have hqs : formEncodePairs ([] : List (String × String)) = "" := rfl
        simp only [buildQueryString, specQueryString, hl, ht, he, hrest, hqs,
          Bool.false_eq_true, if_false, if_pos rfl, List.isEmpty_nil, if_true]
        rw [← String.append_assoc]
        exact congrArg (fun s => s ++ encodeURIComponent f) (by decide)
      | cons kv l =>
        have hqs : formEncodePairs (delFilter qp) ≠ "" := by
          rw [hrest]; exact formEncodePairs_ne kv l
        have hie : (delFilter qp).isEmpty = false := by rw [hrest]; rfl
        simp only [buildQueryString, specQueryString, hl, ht, he,
          Bool.false_eq_true, if_false, if_neg hqs, hie]
        simp [String.append_assoc]
  exact ⟨hmain, fun endpoint path hp => by simp [buildUrl, hp, hmain]⟩

/-- Witness for C4 at a map combining a general parameter with a non-empty
filter. -/
theorem claim_C4_witness :
    (∀ f, ([("$top", "5"), ("$filter", "subject eq hello")] :
        List (String × String)).lookup "$filter" = some f → f ≠ "") ∧
      buildQueryString [("$top", "5"), ("$filter", "subject eq hello")] =
        specQueryString [("$top", "5"), ("$filter", "subject eq hello")] := by
  have hf : ∀ f, ([("$top", "5"), ("$filter", "subject eq hello")] :
      List (String × String)).lookup "$filter" = some f → f ≠ "" := by
    intro f h
    have : some "subject eq hello" = some f := by
      rw [← h]; decide
    cases this
    decide
  exact ⟨hf, (claim_C4 _ hf).1⟩

/-- C6: whenever a page response carries a continuation cursor and the
pagination loop continues, the next request is issued with the cursor URL as
the target and an *empty* query-parameter object; and an absolute cursor URL
passes through URL building verbatim — it is neither re-encoded nor
recomposed, whatever parameter map accompanies it. -/
theorem claim_C6 (env : Env) (fuel n r : Nat) (accessToken url : String)
    (params : List (String × String)) (maxCount : Nat) (acc : List Json)
    (resp : Json) (link : String)
    (hok : (callGraphAPI env n r accessToken "GET" url none params).result = .ok resp)
    (hcont : ¬(0 < maxCount ∧ maxCount ≤ (acc ++ valueItems resp).length))
    (hlink : nextLinkOf resp = some link) :
    (paginateLoop env (fuel + 1) n r accessToken url params maxCount acc =
      match paginateLoop env fuel
          (n + (callGraphAPI env n r accessToken "GET" url none params).attempts.length)
          (r + (callGraphAPI env n r accessToken "GET" url none params).refreshes)
          accessToken link [] maxCount (acc ++ valueItems resp) with
      | some rest =>
        some { result := rest.result
               attempts :=
                 (callGraphAPI env n r accessToken "GET" url none params).attempts ++
                   rest.attempts
               refreshes :=
                 (callGraphAPI env n r accessToken "GET" url none params).refreshes +
                   rest.refreshes }
      | none => none) ∧
    (isAbsoluteUrl link = true →
      ∀ qp2, buildUrl env.graphEndpoint link qp2 = link) := by
  constructor
  · simp only [paginateLoop, hok, hlink, if_neg hcont]
  · intro habs qp2
    simp [buildUrl, habs]

/-- Environment for the C6 witness: one page with one item and an absolute
continuation cursor. -/
def c6Env : Env :=
  { useTestMode := false
    graphEndpoint := "https://graph.microsoft.com/v1.0/"
    simulate := fun _ _ _ _ => Json.null
    respond := fun _ _ => .response 200 "page"
    refresh := fun _ => .nul
    parse := fun _ => .ok (Json.obj
      [("value", Json.arr [Json.num 7]),
        ("@odata.nextLink", Json.str "https://graph.microsoft.com/v1.0/me?skip=1")]) }

/-- The page object served by `c6Env`. -/
def c6Page : Json :=
  Json.obj [("value", Json.arr [Json.num 7]),
    ("@odata.nextLink", Json.str "https://graph.microsoft.com/v1.0/me?skip=1")]

/-- Witness for C6: the loop step continues at the absolute cursor with an
empty parameter object, and the cursor URL survives URL building verbatim. -/
theorem claim_C6_witness :
    (paginateLoop c6Env 2 0 0 "t1" "me" [] 0 [] =
      match paginateLoop c6Env 1
          (0 + (callGraphAPI c6Env 0 0 "t1" "GET" "me" none []).attempts.length)
          (0 + (callGraphAPI c6Env 0 0 "t1" "GET" "me" none []).refreshes)
          "t1" "https://graph.microsoft.com/v1.0/me?skip=1" [] 0
          ([] ++ valueItems c6Page) with
      | some rest =>
        some { result := rest.result
               attempts :=
                 (callGraphAPI c6Env 0 0 "t1" "GET" "me" none []).attempts ++
                   rest.attempts
               refreshes :=
                 (callGraphAPI c6Env 0 0 "t1" "GET" "me" none []).refreshes +
                   rest.refreshes }
      | none => none) ∧
    (isAbsoluteUrl "https://graph.microsoft.com/v1.0/me?skip=1" = true →
      ∀ qp2, buildUrl c6Env.graphEndpoint
          "https://graph.microsoft.com/v1.0/me?skip=1" qp2 =
        "https://graph.microsoft.com/v1.0/me?skip=1") :=
  claim_C6 c6Env 1 0 0 "t1" "me" [] 0 [] c6Page
    "https://graph.microsoft.com/v1.0/me?skip=1" rfl (by decide) rfl

/-- Body string served for the page at attempt index `i` (non-empty, and of
length `i + 1` so the parse oracle can recover the index). -/
def pageBody (i : Nat) : String :=
  String.mk (List.replicate (i + 1) 'x')

/-- The JSON object for page `i` of a given page sequence: its items under
`value`, and a continuation cursor exactly when a further page exists. -/
def pageJson (pages : List (List Json)) (i : Nat) : Json :=
  Json.obj (("value", Json.arr (pages.getD i [])) ::
    (if i + 1 < pages.length then [("@odata.nextLink", Json.str "next")] else []))

/-- Environment serving an arbitrary finite sequence of pages chained by
continuation cursors: the `i`-th HTTP request is answered with page `i`. -/
def pagesEnv (pages : List (List Json)) : Env :=
  { useTestMode := false
    graphEndpoint := "https://graph.microsoft.com/v1.0/"
    simulate := fun _ _ _ _ => Json.null
    respond := fun i _ => .response 200 (pageBody i)
    refresh := fun _ => .nul
    parse := fun s => .ok (pageJson pages (s.length - 1)) }

/-- Number of pages the loop must fetch before the accumulated item count
reaches `need` (all of them when the sequence runs out first). -/
def pagesNeeded : List (List Json) → Nat → Nat
  | [], _ => 0
  | p :: ps, need => if need ≤ p.length then 1 else 1 + pagesNeeded ps (need - p.length)

theorem pageBody_length (i : Nat) : (pageBody i).length = i + 1 := by
  simp [pageBody, String.length]

theorem pageBody_ne (i : Nat) : pageBody i ≠ "" := by
  intro h
  have hl := congrArg String.length h
  rw [pageBody_length] at hl
  simp at hl

/-- In the page environment every call succeeds with its page after exactly
one attempt and no refresh. -/
theorem callGraphAPI_pagesEnv (pages : List (List Json)) (i r : Nat)
    (tok url : String) (params : List (String × String)) :
    callGraphAPI (pagesEnv pages) i r tok "GET" url none params =
      { result := .ok (pageJson pages i)
        attempts := [mkAttempt (pagesEnv pages) tok "GET" url none params]
        refreshes := 0 } := by
  have hb := pageBody_ne i
  simp [callGraphAPI, pagesEnv, parse2xx, hb, pageBody_length]

theorem valueItems_pageJson (pages : List (List Json)) (i : Nat) :
    valueItems (pageJson pages i) = pages.getD i [] := by
  by_cases hc : i + 1 < pages.length
  · rw [pageJson, if_pos hc]; rfl
  · rw [pageJson, if_neg hc]; rfl

theorem nextLinkOf_pageJson (pages : List (List Json)) (i : Nat) :
    nextLinkOf (pageJson pages i) =
      if i + 1 < pages.length then some "next" else none := by
  by_cases hc : i + 1 < pages.length
  · rw [pageJson, if_pos hc, if_pos hc]; rfl
  · rw [pageJson, if_neg hc, if_neg hc]; rfl

/-- Behaviour of the pagination loop over the page environment, by induction
on the fuel: starting at page `i` with accumulator `acc`, it returns the
accumulated items of the remaining pages (trimmed at a positive bound) and
fetches exactly the needed number of pages. -/
theorem paginateLoop_pagesEnv (pages : List (List Json)) (maxCount : Nat) :
    ∀ (fuel i r : Nat) (acc : List Json) (tok url : String)
      (params : List (String × String)),
      i < pages.length →
      pages.length - i ≤ fuel →
      (0 < maxCount → acc.length < maxCount) →
      (paginateLoop (pagesEnv pages) fuel i r tok url params maxCount acc).map
          (fun o => (o.result, o.attempts.length, o.refreshes)) =
        some (.ok (paginatedResponse
            (if 0 < maxCount then (acc ++ (pages.drop i).flatten).take maxCount
             else acc ++ (pages.drop i).flatten)),
          (if 0 < maxCount then pagesNeeded (pages.drop i) (maxCount - acc.length)
           else pages.length - i),
          0) := by
  intro fuel
  induction fuel with
  | zero => intro i r acc tok url params hi hfuel hacc; omega
  | succ fuel ih =>
    intro i r acc tok url params hi hfuel hacc
    have hdrop : pages.drop i = pages[i] :: pages.drop (i + 1) :=
      List.drop_eq_getElem_cons hi
    have hgd : pages.getD i [] = pages[i] := List.getD_eq_getElem pages [] hi
    have hlen : (acc ++ pages[i]).length = acc.length + pages[i].length :=
      List.length_append acc pages[i]
    simp only [paginateLoop, callGraphAPI_pagesEnv, valueItems_pageJson, hgd,
      nextLinkOf_pageJson]
    by_cases hstop : 0 < maxCount ∧ maxCount ≤ (acc ++ pages[i]).length
    · rw [if_pos hstop]
      have hmc : 0 < maxCount := hstop.1
      have htake : (acc ++ (pages.drop i).flatten).take maxCount =
          (acc ++ pages[i]).take maxCount := by
        rw [hdrop, List.flatten_cons, ← List.append_assoc]
        exact List.take_append_of_le_length hstop.2
      have hneed : pagesNeeded (pages.drop i) (maxCount - acc.length) = 1 := by
        rw [hdrop, pagesNeeded, if_pos (by omega)]
      simp [hmc, htake, hneed]
    · rw [if_neg hstop]
      by_cases hnext : i + 1 < pages.length
      · rw [if_pos hnext]
        have hacc2 : 0 < maxCount → (acc ++ pages[i]).length < maxCount := by
          intro hmc
          rcases Nat.lt_or_ge (acc ++ pages[i]).length maxCount with h | h
          · exact h
          · exact absurd ⟨hmc, h⟩ hstop
        have ihh := ih (i + 1) r (acc ++ pages[i]) tok "next" [] hnext
          (by omega) hacc2
        rcases Option.map_eq_some'.mp ihh with ⟨rest, hrest, hproj⟩
        simp only [List.length_cons, List.length_nil, Nat.zero_add, Nat.add_zero]
        rw [hrest]
        obtain ⟨hr1, hr2, hr3⟩ : rest.result = _ ∧ rest.attempts.length = _ ∧
            rest.refreshes = 0 := by
          refine ⟨congrArg Prod.fst hproj, ?_, ?_⟩
          · exact congrArg (fun p => p.2.1) hproj
          · exact congrArg (fun p => p.2.2) hproj
        simp only [Option.map_some, hr1, hr3]
        by_cases hmc : 0 < maxCount
        · have hjoin : (acc ++ pages[i]) ++ (pages.drop (i + 1)).flatten =
              acc ++ (pages.drop i).flatten := by
            rw [hdrop, List.flatten_cons, List.append_assoc]
          have hneed : pagesNeeded (pages.drop i) (maxCount - acc.length) =
              1 + pagesNeeded (pages.drop (i + 1))
                (maxCount - (acc ++ pages[i]).length) := by
            rw [hdrop, pagesNeeded, if_neg (by omega), hlen, Nat.sub_sub]
          simp only [if_pos hmc] at hr2 ⊢
          rw [hjoin]
          simp [hr2, hneed] <;> omega
        · have hmc0 : maxCount = 0 := by omega
          subst hmc0
          simp only [Nat.lt_irrefl, if_false] at hr2 ⊢
          have hjoin : (acc ++ pages[i]) ++ (pages.drop (i + 1)).flatten =
              acc ++ (pages.drop i).flatten := by
            rw [hdrop, List.flatten_cons, List.append_assoc]
          rw [hjoin]
          simp [hr2] <;> omega
      · rw [if_neg hnext]
        have hdrop2 : pages.drop (i + 1) = [] :=
          List.drop_eq_nil_of_le (by omega)
        have hjoin : acc ++ (pages.drop i).flatten = acc ++ pages[i] := by
          rw [hdrop, hdrop2]
          simp
        by_cases hmc : 0 < maxCount
        · have hneed : pagesNeeded (pages.drop i) (maxCount - acc.length) = 1 := by
            rw [hdrop, hdrop2, pagesNeeded]
            split
            · rfl
            · simp [pagesNeeded]
          simp [hmc, hjoin, hneed]
        · have hmc0 : maxCount = 0 := by omega
          subst hmc0
          simp [hjoin]
          omega

/-- C5: for every finite sequence of pages chained by continuation cursors,
`callGraphAPIPaginated` with `maxCount = 0` returns all items of all pages
concatenated in their original order, and with a positive `maxCount` returns
exactly the first `maxCount` items of the concatenation (trimming any
overshoot of the last fetched page) while fetching only as many pages as
needed to reach the bound. -/
theorem claim_C5 (pages : List (List Json)) (fuel r maxCount : Nat)
    (tok path : String) (qp : List (String × String))
    (hne : pages ≠ []) (hfuel : pages.length ≤ fuel) :
    (callGraphAPIPaginated (pagesEnv pages) fuel 0 r tok "GET" path qp maxCount).map
        (fun o => (o.result, o.attempts.length, o.refreshes)) =
      some (.ok (paginatedResponse
          (if 0 < maxCount then pages.flatten.take maxCount else pages.flatten)),
        (if 0 < maxCount then pagesNeeded pages maxCount else pages.length), 0) := by
  have hi : 0 < pages.length := by
    cases pages with
    | nil => simp at hne
    | cons a l => simp
  have h := paginateLoop_pagesEnv pages maxCount fuel 0 r [] tok path qp hi
    (by omega) (fun hmc => by simpa using hmc)
  unfold callGraphAPIPaginated
  rw [if_pos rfl]
  simpa using h

/-- Witness for C5 on two concrete pages with an unbounded collect. -/
theorem claim_C5_witness :
    ([[Json.num 1, Json.num 2], [Json.num 3]] : List (List Json)) ≠ [] ∧
      ([[Json.num 1, Json.num 2], [Json.num 3]] : List (List Json)).length ≤ 2 ∧
      (callGraphAPIPaginated (pagesEnv [[Json.num 1, Json.num 2], [Json.num 3]]) 2 0 0
          "t1" "GET" "me" [] 0).map
          (fun o => (o.result, o.attempts.length, o.refreshes)) =
        some (.ok (paginatedResponse [Json.num 1, Json.num 2, Json.num 3]), 2, 0) := by
  have h := claim_C5 [[Json.num 1, Json.num 2], [Json.num 3]] 2 0 0 "t1" "me" []
    (by simp) (by decide)
  exact ⟨by simp, by decide, by simpa using h⟩
